import Mathlib

/-!
Verification of the VK2D frame/resource lifecycle engine (Vulkan2D).

Shallow embedding of:
  * `src/VK2D/DescriptorControl.c` — the descriptor pool controller
    (`_vk2dDescConAppendList`, `_vk2dDescConGetAvailableSet`,
    `vk2dDescConCreate`, `vk2dDescConReset`);
  * `src/unnamed/part_000` — `Renderer.c` (the later of the two copies in
    that file, lines 932-1548, which carries the null-singleton guards and
    the `procedStartFrame` flag; the swapchain-reset procedure is taken
    from the earlier copy, lines 622-660, the only place it appears under
    `src/`).

Vulkan driver behaviour is modelled explicitly: a descriptor pool is a
fill counter with a fixed capacity, `vkAllocateDescriptorSets` succeeds
exactly when the pool is not full and otherwise reports
`VK_ERROR_OUT_OF_POOL_MEMORY`; renderer entry points emit an event trace
recording the driver calls they make, in program order.
-/

namespace VK2D

/-! ## Descriptor pool controller (`src/VK2D/DescriptorControl.c`) -/

/-- One backing `VkDescriptorPool` of a descriptor controller: the handle
returned by `vkCreateDescriptorPool` together with the driver-side count of
sets allocated from it so far.  A pool's capacity (`maxSets`, the constant
`VK2D_DEFAULT_DESCRIPTOR_POOL_ALLOCATION`, whose header is not under `src/`)
is passed as the parameter `cap` below. -/
structure Pool where
  handle : Nat
  fill : Nat
deriving DecidableEq, Repr

instance : Inhabited Pool := ⟨⟨0, 0⟩⟩

/-- A descriptor controller (`struct VK2DDescCon_t`): the binding-location
fields copied by `vk2dDescConCreate`, the ordered list of backing pools
(`pools`, with `poolsInUse = pools.length`), and the allocated capacity of
the pool-handle array (`poolListSize`). -/
structure VK2DDescCon where
  layout : Nat
  buffer : Nat
  sampler : Nat
  storageBuffer : Nat
  pools : List Pool
  poolListSize : Nat
deriving DecidableEq, Repr

instance : Inhabited VK2DDescCon := ⟨⟨0, 0, 0, 0, [], 0⟩⟩

/-- Embedding of `_vk2dDescConAppendList` (DescriptorControl.c lines 15-44):
grow the handle array by `VK2D_DEFAULT_ARRAY_EXTENSION` (the parameter
`ext`) when it is exactly full, then create one more pool — empty, with the
same sizing policy as every other pool — at the end of the list.  The fresh
pool's handle is its creation index. -/
def _vk2dDescConAppendList (ext : Nat) (descCon : VK2DDescCon) : VK2DDescCon :=
  let grown :=
    if descCon.poolListSize = descCon.pools.length then
      { descCon with poolListSize := descCon.poolListSize + ext }
    else
      descCon
  { grown with pools := grown.pools ++ [⟨descCon.pools.length, 0⟩] }

/-- The scanning loop of `_vk2dDescConGetAvailableSet` over the existing
pools, in creation order: try `vkAllocateDescriptorSets` on each pool; a
full pool reports `VK_ERROR_OUT_OF_POOL_MEMORY` and the loop advances to
the next pool.  Returns the pool index, the allocated slot, and the updated
pool states, or `none` when every existing pool is exhausted. -/
def descConScan (cap : Nat) : List Pool → Option (Nat × Nat × List Pool)
  | [] => none
  | p :: rest =>
    if p.fill < cap then
      some (0, p.fill, { p with fill := p.fill + 1 } :: rest)
    else
      match descConScan cap rest with
      | some (i, s, rest') => some (i + 1, s, p :: rest')
      | none => none

/-- Embedding of `_vk2dDescConGetAvailableSet` (DescriptorControl.c lines
47-68): scan the pools in creation order; when all existing pools report
out-of-pool-memory, append one new pool (`_vk2dDescConAppendList`) and
retry from it, which succeeds immediately whenever `0 < cap`.  With
`cap = 0` the C loop would append pools forever; that divergence is
modelled as `none`.  A returned set is identified by (pool index, slot
within the pool). -/
def _vk2dDescConGetAvailableSet (ext cap : Nat) (descCon : VK2DDescCon) :
    VK2DDescCon × Option (Nat × Nat) :=
  match descConScan cap descCon.pools with
  | some (i, s, pools') => ({ descCon with pools := pools' }, some (i, s))
  | none =>
    let appended := _vk2dDescConAppendList ext descCon
    if 0 < cap then
      ({ appended with pools := descCon.pools ++ [⟨descCon.pools.length, 1⟩] },
       some (descCon.pools.length, 0))
    else
      (appended, none)

/-- Embedding of `vk2dDescConGetSet` (DescriptorControl.c lines 110-112). -/
def vk2dDescConGetSet (ext cap : Nat) (descCon : VK2DDescCon) :
    VK2DDescCon × Option (Nat × Nat) :=
  _vk2dDescConGetAvailableSet ext cap descCon

/-- Embedding of `vk2dDescConCreate` (DescriptorControl.c lines 70-86):
zero the controller, copy the layout and binding locations, then append the
first backing pool. -/
def vk2dDescConCreate (ext layout buffer sampler storageBuffer : Nat) : VK2DDescCon :=
  _vk2dDescConAppendList ext
    { layout := layout, buffer := buffer, sampler := sampler,
      storageBuffer := storageBuffer, pools := [], poolListSize := 0 }

/-- Embedding of `vk2dDescConReset` (DescriptorControl.c lines 143-148):
one `vkResetDescriptorPool` per backing pool, which empties the pool on the
driver side and touches nothing else.  The second component counts the
`vkResetDescriptorPool` calls performed. -/
def vk2dDescConReset (descCon : VK2DDescCon) : VK2DDescCon × Nat :=
  ({ descCon with pools := descCon.pools.map fun p => { p with fill := 0 } },
   descCon.pools.length)

/-- Driver-side fill count of pool `i` (0 for a pool that does not exist). -/
def fillAt (descCon : VK2DDescCon) (i : Nat) : Nat :=
  (descCon.pools.getD i default).fill

/-- Iterate `vk2dDescConGetSet` `n` times, collecting the outcomes in call
order. -/
def vk2dDescConGetSets (ext cap : Nat) : Nat → VK2DDescCon → VK2DDescCon × List (Option (Nat × Nat))
  | 0, descCon => (descCon, [])
  | n + 1, descCon =>
    let step := vk2dDescConGetSet ext cap descCon
    let rest := vk2dDescConGetSets ext cap n step.1
    (rest.1, step.2 :: rest.2)

/-- States of a descriptor controller reachable through `create`, `getSet`
and `reset`. -/
inductive DescConReachable (ext cap : Nat) : VK2DDescCon → Prop
  | create (layout buffer sampler storageBuffer : Nat) :
      DescConReachable ext cap (vk2dDescConCreate ext layout buffer sampler storageBuffer)
  | getSet {dc : VK2DDescCon} :
      DescConReachable ext cap dc →
      DescConReachable ext cap (vk2dDescConGetSet ext cap dc).1
  | reset {dc : VK2DDescCon} :
      DescConReachable ext cap dc →
      DescConReachable ext cap (vk2dDescConReset dc).1

/-! ## Renderer state machine (`Renderer.c`, `src/unnamed/part_000`)

Vulkan object handles are modelled as natural numbers, with 0 standing for
`VK_NULL_HANDLE` / `NULL`.  Driver calls issued by an entry point are
recorded in an event trace, in program order.  Floating-point values that
the code only stores and copies (camera specs, viewport, colour modifier,
frame times) are modelled as opaque integers. -/

/-- Result codes of the driver calls the renderer inspects. -/
inductive VkResult where
  | success
  | suboptimalKHR
  | errorOutOfDateKHR
  | otherError (code : Int)
deriving DecidableEq, Repr

/-- Blend modes (`VK2DBlendMode`); `bm_None` is the neutral value returned
when the singleton is null. -/
inductive VK2DBlendMode where
  | bm_None
  | bm_Blend
  | bm_Add
  | bm_Subtract
deriving DecidableEq, Repr

instance : Inhabited VK2DBlendMode := ⟨VK2DBlendMode.bm_None⟩

/-- Renderer configuration (`VK2DRendererConfig`): filter mode, screen
(present) mode and MSAA level. -/
structure VK2DRendererConfig where
  filterMode : Nat
  screenMode : Nat
  msaa : Nat
deriving DecidableEq, Repr

/-- The zeroed configuration `VK2DRendererConfig c = {}` returned by
`vk2dRendererGetConfig` when the singleton is null. -/
def zeroConfig : VK2DRendererConfig := ⟨0, 0, 0⟩

instance : Inhabited VK2DRendererConfig := ⟨zeroConfig⟩

/-- Camera states; `cs_Normal` cameras have their uniform buffers flushed
on `vk2dRendererStartFrame`. -/
inductive VK2DCameraState where
  | cs_Normal
  | cs_Disabled
deriving DecidableEq, Repr

/-- A camera specification (`VK2DCameraSpec`).  The float fields are
opaque integers: `vk2dRendererSetCamera` only copies them. -/
structure VK2DCameraSpec where
  ctype : Nat
  x : Int
  y : Int
  w : Int
  h : Int
  zoom : Int
  rot : Int
  xOnScreen : Int
  yOnScreen : Int
  wOnScreen : Int
  hOnScreen : Int
deriving DecidableEq, Repr

instance : Inhabited VK2DCameraSpec := ⟨⟨0, 0, 0, 0, 0, 0, 0, 0, 0, 0, 0⟩⟩

/-- One camera slot of `gRenderer->cameras`: its spec, its state, and its
per-swapchain-image descriptor sets (`uboSets`). -/
structure VK2DCamera where
  spec : VK2DCameraSpec
  state : VK2DCameraState
  uboSets : List Nat
deriving DecidableEq, Repr

instance : Inhabited VK2DCamera := ⟨⟨default, VK2DCameraState.cs_Disabled, []⟩⟩

/-- The fields of a `VK2DTexture` that `vk2dRendererSetTarget`
dereferences: `target->fbo`, `target->img->img` (with its dimensions) and
`target->uboSet`. -/
structure TexData where
  fbo : Nat
  img : Nat
  width : Nat
  height : Nat
  uboSet : Nat
deriving DecidableEq, Repr

instance : Inhabited TexData := ⟨⟨0, 0, 0, 0, 0⟩⟩

/-- The viewport rectangle (`VkViewport`), float fields opaque. -/
structure Viewport where
  x : Int
  y : Int
  width : Int
  height : Int
deriving DecidableEq, Repr

/-- Driver calls and observable side effects emitted by renderer entry
points, in program order.  `recordImageUser` marks the assignment
`gRenderer->imagesInFlight[scImageIndex] = inFlightFences[currentFrame]`;
`rebuildSwapchain` marks a call to `_vk2dRendererResetSwapchain`;
`logMessage` marks `vk2dLogMessage`. -/
inductive VkEvent where
  | waitFences (fence : Nat)
  | acquireNextImage (image : Nat)
  | recordImageUser (image : Nat) (fence : Nat)
  | updateCameraUBO (camera : Nat)
  | resetCommandBuffer
  | beginCommandBuffer
  | beginRenderPass (pass : Nat)
  | endRenderPass
  | endCommandBuffer
  | resetFences (fence : Nat)
  | queueSubmit (fence : Nat)
  | queuePresent (image : Nat)
  | transitionImageLayout (image oldLayout newLayout : Nat)
  | rebuildSwapchain
  | errorCheck (res : VkResult)
  | queueWaitIdle
  | logMessage
deriving DecidableEq, Repr

/-- `VK_IMAGE_LAYOUT_COLOR_ATTACHMENT_OPTIMAL` (Vulkan enum value 2). -/
def LAYOUT_COLOR_ATTACHMENT_OPTIMAL : Nat := 2

/-- `VK_IMAGE_LAYOUT_SHADER_READ_ONLY_OPTIMAL` (Vulkan enum value 5). -/
def LAYOUT_SHADER_READ_ONLY_OPTIMAL : Nat := 5

/-- `VK2D_TARGET_SCREEN`, the null texture pointer denoting the screen
target. -/
def VK2D_TARGET_SCREEN : Nat := 0

/-- `VK2D_DEFAULT_CAMERA`, index of the default camera slot. -/
def VK2D_DEFAULT_CAMERA : Nat := 0

/-- Modelled from the spec: `VK2D_MAX_FRAMES_IN_FLIGHT`, the fixed
frame-in-flight count (the spec's FrameSlot count N, e.g. N=2); its header
`Constants.h` is not under `src/`.  Theorems refer to it symbolically. -/
def VK2D_MAX_FRAMES_IN_FLIGHT : Nat := 2

/-- The renderer singleton state (`struct VK2DRenderer`), restricted to
the fields the verified entry points read or write.  Texture pointers are
indices into `texHeap` shifted by one, so that pointer 0 is `NULL`
(= `VK2D_TARGET_SCREEN`) and distinct pointers may dereference to equal
`TexData` (pointer identity is not structural equality). -/
structure VK2DRenderer where
  config : VK2DRendererConfig
  newConfig : VK2DRendererConfig
  maxMSAA : Nat
  resetSwapchain : Bool
  procedStartFrame : Bool
  currentFrame : Nat
  scImageIndex : Nat
  inFlightFences : List Nat
  imagesInFlight : List (Option Nat)
  framebuffers : List Nat
  swapchainImages : List Nat
  renderPass : Nat
  midFrameSwapRenderPass : Nat
  externalTargetRenderPass : Nat
  target : Nat
  targetFrameBuffer : Nat
  targetRenderPass : Nat
  targetSubPass : Nat
  targetImage : Nat
  targetUBOSet : Nat
  texHeap : List TexData
  cameras : List VK2DCamera
  surfaceWidth : Int
  surfaceHeight : Int
  viewport : Viewport
  colourBlend : Int × Int × Int × Int
  blendMode : VK2DBlendMode
  boundPipe : Nat
  boundSet : Nat
  ld : Nat
  previousTime : Int
  accumulatedTime : Int
  amountOfFrames : Int
  frameTimeAverage : Int
deriving DecidableEq, Repr

/-- Dereference a texture pointer against the texture heap. -/
def derefTex (r : VK2DRenderer) (p : Nat) : TexData :=
  r.texHeap.getD (p - 1) default

/-- The current frame slot's in-flight fence,
`gRenderer->inFlightFences[gRenderer->currentFrame]`. -/
def slotFence (r : VK2DRenderer) : Nat :=
  r.inFlightFences.getD r.currentFrame 0

/-- Modelled from the spec: `_vk2dRendererResetBoundPointers` (defined in
`RendererMeta.c`, which is not under `src/`) clears the currently-bound
pipeline/descriptor-set cache so the next draw call rebinds everything. -/
def _vk2dRendererResetBoundPointers (r : VK2DRenderer) : VK2DRenderer :=
  { r with boundPipe := 0, boundSet := 0 }

/-- Embedding of `_vk2dRendererResetSwapchain` (`src/unnamed/part_000`
lines 622-660): destroy and recreate every swapchain-sized object, swap
the staged configuration in (`gRenderer->config = gRenderer->newConfig`),
and recreate synchronization, which zeroes the per-image last-user fences
(`imagesInFlight` is freshly `calloc`ed).  The destruction/recreation of
GPU objects and the surface-size re-query are driver-side effects outside
this state model. -/
def _vk2dRendererResetSwapchain (r : VK2DRenderer) : VK2DRenderer :=
  { r with
    config := r.newConfig,
    imagesInFlight := List.replicate r.imagesInFlight.length none }

/-- The per-camera uniform-buffer flush loop of `vk2dRendererStartFrame`:
every camera in state `cs_Normal` has its UBO recomputed and flushed into
its buffer slice for the acquired image. -/
def cameraFlushEvents (cams : List VK2DCamera) : List VkEvent :=
  cams.enum.filterMap fun ic =>
    if ic.2.state = VK2DCameraState.cs_Normal then
      some (VkEvent.updateCameraUBO ic.1)
    else
      none

/-- Embedding of `vk2dRendererStartFrame` (`src/unnamed/part_000` lines
1147-1223) on a non-null singleton.  `clear` is the caller's clear colour
(opaque), `now` the performance counter reading, and `acquiredImage` the
image index written by `vkAcquireNextImageKHR` (an external input).  When
a frame is already active (`procedStartFrame`), the whole body is skipped. -/
def vk2dRendererStartFrameR (clear : Int × Int × Int × Int) (now : Int)
    (acquiredImage : Nat) (r : VK2DRenderer) : VK2DRenderer × List VkEvent :=
  if r.procedStartFrame then
    (r, [])
  else
    let curFence := slotFence r
    let idx := acquiredImage
    let imageWait :=
      match r.imagesInFlight.getD idx none with
      | some f => [VkEvent.waitFences f]
      | none => []
    let r1 := { r with
      procedStartFrame := true,
      previousTime := now,
      scImageIndex := idx,
      imagesInFlight := r.imagesInFlight.set idx (some curFence) }
    let r2 := _vk2dRendererResetBoundPointers r1
    let r3 := { r2 with
      targetFrameBuffer := r.framebuffers.getD idx 0,
      targetRenderPass := r.renderPass,
      targetSubPass := 0,
      targetImage := r.swapchainImages.getD idx 0,
      targetUBOSet := (r.cameras.getD 0 default).uboSets.getD idx 0,
      target := VK2D_TARGET_SCREEN }
    (r3,
     [VkEvent.waitFences curFence, VkEvent.acquireNextImage idx]
       ++ imageWait
       ++ [VkEvent.recordImageUser idx curFence]
       ++ cameraFlushEvents r.cameras
       ++ [VkEvent.resetCommandBuffer, VkEvent.beginCommandBuffer,
           VkEvent.beginRenderPass r.renderPass])

/-- The rebuild condition checked by `vk2dRendererEndFrame` (lines
1256-1257): `result == VK_ERROR_OUT_OF_DATE_KHR || result ==
VK_SUBOPTIMAL_KHR || gRenderer->resetSwapchain || queueRes ==
VK_ERROR_OUT_OF_DATE_KHR`. -/
def endFrameRebuildCond (result queueRes : VkResult) (r : VK2DRenderer) : Bool :=
  result = VkResult.errorOutOfDateKHR ∨ result = VkResult.suboptimalKHR ∨
    r.resetSwapchain ∨ queueRes = VkResult.errorOutOfDateKHR

/-- Embedding of `vk2dRendererEndFrame` (`src/unnamed/part_000` lines
1225-1280) on a non-null singleton.  `result` is the per-swapchain present
result, `queueRes` the return value of `vkQueuePresentKHR`, and
`elapsedMs` the externally measured elapsed milliseconds (the code's
double arithmetic on performance counters, modelled over `Int`).  When no
frame is active the whole body is skipped. -/
def vk2dRendererEndFrameR (result queueRes : VkResult) (elapsedMs : Int)
    (r : VK2DRenderer) : VK2DRenderer × List VkEvent :=
  if r.procedStartFrame then
    let curFence := slotFence r
    let r1 := { r with procedStartFrame := false }
    let rebuilt :=
      if endFrameRebuildCond result queueRes r then
        ({ _vk2dRendererResetSwapchain r1 with resetSwapchain := false },
         [VkEvent.rebuildSwapchain])
      else
        (r1, [VkEvent.errorCheck result, VkEvent.errorCheck queueRes])
    let r2 := rebuilt.1
    let r3 := { r2 with currentFrame := (r2.currentFrame + 1) % VK2D_MAX_FRAMES_IN_FLIGHT }
    let r4 := { r3 with
      accumulatedTime := r3.accumulatedTime + elapsedMs,
      amountOfFrames := r3.amountOfFrames + 1 }
    let r5 :=
      if r4.accumulatedTime ≥ 1000 then
        { r4 with
          frameTimeAverage := r4.accumulatedTime / r4.amountOfFrames,
          accumulatedTime := 0,
          amountOfFrames := 0 }
      else
        r4
    (r5,
     [VkEvent.endRenderPass, VkEvent.endCommandBuffer,
      VkEvent.resetFences curFence, VkEvent.queueSubmit curFence,
      VkEvent.queuePresent r.scImageIndex]
       ++ rebuilt.2)
  else
    (r, [])

/-- Embedding of `vk2dRendererSetTarget` (`src/unnamed/part_000` lines
1290-1340) on a non-null singleton: a no-op when `target` is pointer-equal
to the active target, otherwise end the current render pass, transition
exactly one image layout (the outgoing image when returning to the screen,
the incoming texture's image otherwise), begin the target-appropriate
render pass, and reset the bound-pointer cache. -/
def vk2dRendererSetTargetR (target : Nat) (r : VK2DRenderer) :
    VK2DRenderer × List VkEvent :=
  if target = r.target then
    (r, [])
  else
    let td := derefTex r target
    let pass :=
      if target = VK2D_TARGET_SCREEN then r.midFrameSwapRenderPass
      else r.externalTargetRenderPass
    let framebuffer :=
      if target = VK2D_TARGET_SCREEN then r.framebuffers.getD r.scImageIndex 0
      else td.fbo
    let image :=
      if target = VK2D_TARGET_SCREEN then r.swapchainImages.getD r.scImageIndex 0
      else td.img
    let uboSet :=
      if target = VK2D_TARGET_SCREEN then
        (r.cameras.getD 0 default).uboSets.getD r.scImageIndex 0
      else td.uboSet
    let transition :=
      if target = VK2D_TARGET_SCREEN then
        VkEvent.transitionImageLayout r.targetImage
          LAYOUT_COLOR_ATTACHMENT_OPTIMAL LAYOUT_SHADER_READ_ONLY_OPTIMAL
      else
        VkEvent.transitionImageLayout td.img
          LAYOUT_SHADER_READ_ONLY_OPTIMAL LAYOUT_COLOR_ATTACHMENT_OPTIMAL
    let r1 := { r with
      target := target,
      targetRenderPass := pass,
      targetFrameBuffer := framebuffer,
      targetImage := image,
      targetUBOSet := uboSet }
    let r2 := _vk2dRendererResetBoundPointers r1
    (r2, [VkEvent.endRenderPass, transition, VkEvent.beginRenderPass pass])

/-- Embedding of `vk2dRendererSetConfig` (lines 1136-1145) on a non-null
singleton: stage the configuration with the MSAA level clamped to the
device maximum and request a swapchain reset; the applied configuration is
untouched. -/
def vk2dRendererSetConfigR (config : VK2DRendererConfig) (r : VK2DRenderer) :
    VK2DRenderer :=
  { r with
    newConfig :=
      { config with msaa := if r.maxMSAA ≥ config.msaa then config.msaa else r.maxMSAA },
    resetSwapchain := true }

/-- Embedding of `vk2dRendererSetCamera` (lines 1379-1389) on a non-null
singleton: store the spec into the default camera slot, then overwrite its
on-screen placement with the full surface. -/
def vk2dRendererSetCameraR (camera : VK2DCameraSpec) (r : VK2DRenderer) :
    VK2DRenderer :=
  let slot := r.cameras.getD VK2D_DEFAULT_CAMERA default
  let newSpec := { camera with
    wOnScreen := r.surfaceWidth,
    hOnScreen := r.surfaceHeight,
    xOnScreen := 0,
    yOnScreen := 0 }
  { r with cameras := r.cameras.set VK2D_DEFAULT_CAMERA { slot with spec := newSpec } }

/-- The null-singleton guard shared by every exposed entry point: when
`gRenderer` is `NULL`, log a message and leave everything unchanged. -/
def guarded (f : VK2DRenderer → VK2DRenderer × List VkEvent) :
    Option VK2DRenderer → Option VK2DRenderer × List VkEvent
  | some r => let fr := f r; (some fr.1, fr.2)
  | none => (none, [VkEvent.logMessage])

/-- The null-singleton guard for value-returning entry points, with the
neutral value returned on a null singleton. -/
def guardedGet (f : VK2DRenderer → α) (neutral : α) :
    Option VK2DRenderer → Option VK2DRenderer × List VkEvent × α
  | some r => (some r, [], f r)
  | none => (none, [VkEvent.logMessage], neutral)

/-- `vk2dRendererStartFrame` (lines 1147-1223) including the null guard. -/
def vk2dRendererStartFrame (clear : Int × Int × Int × Int) (now : Int)
    (acquiredImage : Nat) : Option VK2DRenderer → Option VK2DRenderer × List VkEvent :=
  guarded (vk2dRendererStartFrameR clear now acquiredImage)

/-- `vk2dRendererEndFrame` (lines 1225-1280) including the null guard. -/
def vk2dRendererEndFrame (result queueRes : VkResult) (elapsedMs : Int) :
    Option VK2DRenderer → Option VK2DRenderer × List VkEvent :=
  guarded (vk2dRendererEndFrameR result queueRes elapsedMs)

/-- `vk2dRendererSetTarget` (lines 1290-1340) including the null guard. -/
def vk2dRendererSetTarget (target : Nat) :
    Option VK2DRenderer → Option VK2DRenderer × List VkEvent :=
  guarded (vk2dRendererSetTargetR target)

/-- `vk2dRendererSetConfig` (lines 1136-1145) including the null guard. -/
def vk2dRendererSetConfig (config : VK2DRendererConfig) :
    Option VK2DRenderer → Option VK2DRenderer × List VkEvent :=
  guarded fun r => (vk2dRendererSetConfigR config r, [])

/-- `vk2dRendererGetConfig` (lines 1127-1134): returns the applied
configuration, or the zeroed configuration on a null singleton. -/
def vk2dRendererGetConfig :
    Option VK2DRenderer → Option VK2DRenderer × List VkEvent × VK2DRendererConfig :=
  guardedGet (fun r => r.config) zeroConfig

/-- `vk2dRendererSetCamera` (lines 1379-1389) including the null guard. -/
def vk2dRendererSetCamera (camera : VK2DCameraSpec) :
    Option VK2DRenderer → Option VK2DRenderer × List VkEvent :=
  guarded fun r => (vk2dRendererSetCameraR camera r, [])

/-- `vk2dRendererSetViewport` (lines 1400-1409) including the null guard. -/
def vk2dRendererSetViewport (x y w h : Int) :
    Option VK2DRenderer → Option VK2DRenderer × List VkEvent :=
  guarded fun r => ({ r with viewport := ⟨x, y, w, h⟩ }, [])

/-- `vk2dRendererSetColourMod` (lines 1342-1351) including the null guard. -/
def vk2dRendererSetColourMod (mod : Int × Int × Int × Int) :
    Option VK2DRenderer → Option VK2DRenderer × List VkEvent :=
  guarded fun r => ({ r with colourBlend := mod }, [])

/-- `vk2dRendererGetAverageFrameTime` (lines 1443-1449): returns the
rolling average, or 0 on a null singleton. -/
def vk2dRendererGetAverageFrameTime :
    Option VK2DRenderer → Option VK2DRenderer × List VkEvent × Int :=
  guardedGet (fun r => r.frameTimeAverage) 0

/-- `vk2dRendererWait` (lines 1109-1114): `vkQueueWaitIdle` on the
device queue, or a logged no-op on a null singleton. -/
def vk2dRendererWait :
    Option VK2DRenderer → Option VK2DRenderer × List VkEvent :=
  guarded fun r => (r, [VkEvent.queueWaitIdle])

/-- `vk2dRendererGetDevice` (lines 1282-1288): returns the logical device,
or `NULL` (0) on a null singleton. -/
def vk2dRendererGetDevice :
    Option VK2DRenderer → Option VK2DRenderer × List VkEvent × Nat :=
  guardedGet (fun r => r.ld) 0

/-- `vk2dRendererGetBlendMode` (lines 1371-1377): returns the blend mode,
or `bm_None` on a null singleton. -/
def vk2dRendererGetBlendMode :
    Option VK2DRenderer → Option VK2DRenderer × List VkEvent × VK2DBlendMode :=
  guardedGet (fun r => r.blendMode) VK2DBlendMode.bm_None

/-- Events that record into the frame's command buffer (writing work), as
opposed to synchronization, bookkeeping and logging. -/
def isRecordingEvent : VkEvent → Bool
  | VkEvent.resetCommandBuffer => true
  | VkEvent.beginCommandBuffer => true
  | VkEvent.beginRenderPass _ => true
  | VkEvent.endRenderPass => true
  | VkEvent.endCommandBuffer => true
  | VkEvent.transitionImageLayout _ _ _ => true
  | _ => false

/-- Layout-transition events touching a given image. -/
def isLayoutTransitionOf (image : Nat) : VkEvent → Bool
  | VkEvent.transitionImageLayout i _ _ => i = image
  | _ => false

/-- Any layout-transition event. -/
def isLayoutTransition : VkEvent → Bool
  | VkEvent.transitionImageLayout _ _ _ => true
  | _ => false

/-- Render-pass begin events. -/
def isBeginRenderPass : VkEvent → Bool
  | VkEvent.beginRenderPass _ => true
  | _ => false

/-- Render-pass end events. -/
def isEndRenderPass : VkEvent → Bool
  | VkEvent.endRenderPass => true
  | _ => false

/-- The image `vk2dRendererSetTarget` switches drawing into: the acquired
swapchain image for the screen target, the texture's image otherwise. -/
def incomingImage (r : VK2DRenderer) (target : Nat) : Nat :=
  if target = VK2D_TARGET_SCREEN then r.swapchainImages.getD r.scImageIndex 0
  else (derefTex r target).img

/-- The property claimed of `vk2dRendererSetTarget` for a real target
switch: one layout transition of the outgoing image and one of the
incoming image. -/
def setTargetTransitionsBothImages (r : VK2DRenderer) (target : Nat) : Prop :=
  (vk2dRendererSetTargetR target r).2.countP (isLayoutTransitionOf r.targetImage) = 1 ∧
    (vk2dRendererSetTargetR target r).2.countP (isLayoutTransitionOf (incomingImage r target)) = 1

/-- A small texture heap for concrete runs: two distinct texture pointers
(1 and 2) whose dereferenced contents are equal, so pointer identity and
structural equality can be told apart. -/
def sampleTexHeap : List TexData := [⟨7, 8, 64, 48, 9⟩, ⟨7, 8, 64, 48, 9⟩]

/-- A concrete initialized renderer state with an active frame targeting
the screen, used to run the verified entry points on explicit inputs. -/
def sampleRenderer : VK2DRenderer :=
  { config := ⟨1, 2, 4⟩
    newConfig := ⟨1, 2, 4⟩
    maxMSAA := 8
    resetSwapchain := false
    procedStartFrame := true
    currentFrame := 0
    scImageIndex := 0
    inFlightFences := [31, 32]
    imagesInFlight := [some 32, none, none]
    framebuffers := [41, 42, 43]
    swapchainImages := [100, 101, 102]
    renderPass := 51
    midFrameSwapRenderPass := 52
    externalTargetRenderPass := 53
    target := 0
    targetFrameBuffer := 41
    targetRenderPass := 51
    targetSubPass := 0
    targetImage := 100
    targetUBOSet := 61
    texHeap := sampleTexHeap
    cameras := [⟨default, VK2DCameraState.cs_Normal, [61, 62, 63]⟩]
    surfaceWidth := 640
    surfaceHeight := 480
    viewport := ⟨0, 0, 640, 480⟩
    colourBlend := (1, 1, 1, 1)
    blendMode := VK2DBlendMode.bm_Blend
    boundPipe := 0
    boundSet := 0
    ld := 77
    previousTime := 0
    accumulatedTime := 0
    amountOfFrames := 0
    frameTimeAverage := 0 }

/-! ## List helper lemmas -/

theorem getD_set_eq {α : Type _} (l : List α) (i : Nat) (a d : α) (h : i < l.length) :
    (l.set i a).getD i d = a := by
  induction l generalizing i with
  | nil => simp at h
  | cons x xs ih =>
    cases i with
    | zero => rfl
    | succ n =>
      have e : (x :: xs).set (n + 1) a = x :: xs.set n a := rfl
      rw [e, List.getD_cons_succ]
      exact ih n (Nat.lt_of_succ_lt_succ h)

theorem getD_set_ne {α : Type _} (l : List α) (i j : Nat) (a d : α) (h : i ≠ j) :
    (l.set i a).getD j d = l.getD j d := by
  induction l generalizing i j with
  | nil => rfl
  | cons x xs ih =>
    cases i with
    | zero =>
      cases j with
      | zero => exact absurd rfl h
      | succ m => rfl
    | succ n =>
      cases j with
      | zero => rfl
      | succ m =>
        have e : (x :: xs).set (n + 1) a = x :: xs.set n a := rfl
        rw [e, List.getD_cons_succ, List.getD_cons_succ]
        exact ih n m (fun he => h (by rw [he]))

theorem takeWhile_append_of_all {α : Type _} {p : α → Bool} (l₁ l₂ : List α)
    (h : ∀ e ∈ l₁, p e = true) :
    (l₁ ++ l₂).takeWhile p = l₁ ++ l₂.takeWhile p := by
  induction l₁ with
  | nil => simp
  | cons x xs ih =>
    have hx : p x = true := h x (by simp)
    simp only [List.cons_append, List.takeWhile_cons, hx, if_true]
    rw [ih (fun e he => h e (List.mem_cons_of_mem x he))]

/-! ## Descriptor controller theorems -/

theorem descConScan_eq_none_iff (cap : Nat) (ps : List Pool) :
    descConScan cap ps = none ↔ ∀ p ∈ ps, cap ≤ p.fill := by
  induction ps with
  | nil => simp [descConScan]
  | cons p rest ih =>
    by_cases hp : p.fill < cap
    · simp only [descConScan, if_pos hp]
      constructor
      · intro hc; exact absurd hc (by simp)
      · intro hall
        exact absurd (hall p (by simp)) (Nat.not_le.mpr hp)
    · simp only [descConScan, if_neg hp]
      cases hscan : descConScan cap rest with
      | some t =>
        obtain ⟨i, s, rest'⟩ := t
        constructor
        · intro hc; exact absurd hc (by simp)
        · intro hall
          have hnone : descConScan cap rest = none :=
            ih.mpr fun q hq => hall q (List.mem_cons_of_mem p hq)
          rw [hscan] at hnone
          exact absurd hnone (by simp)
      | none =>
        constructor
        · intro _ q hq
          rcases List.mem_cons.mp hq with rfl | hmem
          · exact Nat.le_of_not_lt hp
          · exact ih.mp hscan q hmem
        · intro _; rfl

theorem descConScan_eq_some (cap : Nat) {ps : List Pool} {i s : Nat} {ps' : List Pool}
    (h : descConScan cap ps = some (i, s, ps')) :
    i < ps.length ∧ (ps.getD i default).fill = s ∧ s < cap ∧
      ps' = ps.set i ⟨(ps.getD i default).handle, s + 1⟩ ∧
      ∀ j, j < i → cap ≤ (ps.getD j default).fill := by
  induction ps generalizing i s ps' with
  | nil => exact absurd h (by simp [descConScan])
  | cons p rest ih =>
    by_cases hp : p.fill < cap
    · simp only [descConScan, if_pos hp, Option.some.injEq, Prod.mk.injEq] at h
      obtain ⟨rfl, rfl, rfl⟩ := h
      refine ⟨by simp, rfl, hp, rfl, ?_⟩
      intro j hj
      exact absurd hj (Nat.not_lt_zero j)
    · simp only [descConScan, if_neg hp] at h
      cases hscan : descConScan cap rest with
      | none => rw [hscan] at h; exact absurd h (by simp)
      | some t =>
        obtain ⟨i', s', rest'⟩ := t
        rw [hscan] at h
        simp only [Option.some.injEq, Prod.mk.injEq] at h
        obtain ⟨rfl, rfl, rfl⟩ := h
        obtain ⟨hlt, hfill, hslt, hset, hprev⟩ := ih hscan
        refine ⟨by simpa using Nat.succ_lt_succ hlt, ?_, hslt, ?_, ?_⟩
        · rw [List.getD_cons_succ]; exact hfill
        · have e : (p :: rest).set (i' + 1)
              ⟨(rest.getD i' default).handle, s' + 1⟩ =
              p :: rest.set i' ⟨(rest.getD i' default).handle, s' + 1⟩ := rfl
          rw [List.getD_cons_succ, e, ← hset]
        · intro j hj
          cases j with
          | zero => rw [List.getD_cons_zero]; exact Nat.le_of_not_lt hp
          | succ m =>
            rw [List.getD_cons_succ]
            exact hprev m (Nat.lt_of_succ_lt_succ hj)

theorem getAvailableSet_spec (ext cap : Nat) (hcap : 0 < cap) (dc : VK2DDescCon) :
    ∃ i s,
      (_vk2dDescConGetAvailableSet ext cap dc).2 = some (i, s) ∧
      fillAt dc i = s ∧ s < cap ∧
      fillAt (_vk2dDescConGetAvailableSet ext cap dc).1 i = s + 1 ∧
      (∀ j, fillAt dc j ≤ fillAt (_vk2dDescConGetAvailableSet ext cap dc).1 j) ∧
      (∀ j, j < i → cap ≤ fillAt dc j) ∧
      i ≤ dc.pools.length ∧
      (_vk2dDescConGetAvailableSet ext cap dc).1.pools.length =
        (if i = dc.pools.length then dc.pools.length + 1 else dc.pools.length) := by
  cases hscan : descConScan cap dc.pools with
  | some t =>
    obtain ⟨i, s, ps'⟩ := t
    obtain ⟨hlt, hfill, hslt, hset, hprev⟩ := descConScan_eq_some cap hscan
    refine ⟨i, s, ?_, hfill, hslt, ?_, ?_, hprev, Nat.le_of_lt hlt, ?_⟩
    · simp [_vk2dDescConGetAvailableSet, hscan]
    · simp only [_vk2dDescConGetAvailableSet, hscan, fillAt, hset]
      rw [getD_set_eq _ _ _ _ hlt]
    · intro j
      simp only [_vk2dDescConGetAvailableSet, hscan, fillAt, hset]
      by_cases hji : i = j
      · subst hji
        rw [getD_set_eq _ _ _ _ hlt]
        show (dc.pools.getD i default).fill ≤ s + 1
        rw [hfill]
        exact Nat.le_succ s
      · rw [getD_set_ne _ _ _ _ _ hji]
    · simp only [_vk2dDescConGetAvailableSet, hscan, hset, List.length_set,
        if_neg (Nat.ne_of_lt hlt)]
  | none =>
    have hall : ∀ p ∈ dc.pools, cap ≤ p.fill :=
      (descConScan_eq_none_iff cap dc.pools).mp hscan
    refine ⟨dc.pools.length, 0, ?_, ?_, hcap, ?_, ?_, ?_, Nat.le_refl _, ?_⟩
    · simp [_vk2dDescConGetAvailableSet, hscan, hcap]
    · simp [fillAt, List.getD_eq_default _ _ (Nat.le_refl _)]
      rfl
    · simp only [_vk2dDescConGetAvailableSet, hscan, if_pos hcap, fillAt]
      rw [List.getD_append_right _ _ _ _ (Nat.le_refl _), Nat.sub_self]
      rfl
    · intro j
      simp only [_vk2dDescConGetAvailableSet, hscan, if_pos hcap, fillAt]
      by_cases hj : j < dc.pools.length
      · rw [List.getD_append _ _ _ _ hj]
      · rw [List.getD_eq_default _ _ (Nat.le_of_not_lt hj)]
        exact Nat.zero_le _
    · intro j hj
      have : dc.pools.getD j default ∈ dc.pools := by
        rw [List.getD_eq_getElem _ _ hj]
        exact List.getElem_mem hj
      exact hall _ this
    · simp [_vk2dDescConGetAvailableSet, hscan, hcap]

theorem getSets_spec (ext cap : Nat) (hcap : 0 < cap) :
    ∀ (n : Nat) (dc : VK2DDescCon) (acc : List (Nat × Nat)),
      (∀ q ∈ acc, q.2 < fillAt dc q.1) →
      acc.Pairwise (· ≠ ·) →
      ∃ l : List (Nat × Nat),
        (vk2dDescConGetSets ext cap n dc).2 = l.map some ∧
        (acc ++ l).Pairwise (· ≠ ·) ∧
        ∀ q ∈ acc ++ l, q.2 < fillAt (vk2dDescConGetSets ext cap n dc).1 q.1 := by
  intro n
  induction n with
  | zero =>
    intro dc acc hacc hpw
    exact ⟨[], rfl, by simpa using hpw, by simpa [vk2dDescConGetSets] using hacc⟩
  | succ m ih =>
    intro dc acc hacc hpw
    obtain ⟨i, s, hres, hfill, _, hfill', hmono, _, _, _⟩ :=
      getAvailableSet_spec ext cap hcap dc
    set dc1 := (vk2dDescConGetSet ext cap dc).1 with hdc1
    have hacc1 : ∀ q ∈ acc ++ [(i, s)], q.2 < fillAt dc1 q.1 := by
      intro q hq
      rcases List.mem_append.mp hq with hql | hqr
      · exact Nat.lt_of_lt_of_le (hacc q hql) (hmono q.1)
      · simp at hqr
        subst hqr
        simp only [hdc1, vk2dDescConGetSet]
        rw [hfill']
        exact Nat.lt_succ_self s
    have hpw1 : (acc ++ [(i, s)]).Pairwise (· ≠ ·) := by
      rw [List.pairwise_append]
      refine ⟨hpw, by simp, ?_⟩
      intro a ha b hb
      simp at hb
      subst hb
      intro hcontra
      have := hacc a ha
      rw [hcontra] at this
      simp only at this
      rw [hfill] at this
      exact Nat.lt_irrefl s this
    obtain ⟨l, hl, hlpw, hlbound⟩ := ih dc1 (acc ++ [(i, s)]) hacc1 hpw1
    refine ⟨(i, s) :: l, ?_, ?_, ?_⟩
    · simp only [vk2dDescConGetSets]
      rw [show (vk2dDescConGetSet ext cap dc).2 = some (i, s) from hres, hl]
      rfl
    · have := hlpw
      rwa [List.append_assoc, List.singleton_append] at this
    · intro q hq
      apply hlbound
      rw [List.append_assoc, List.singleton_append]
      exact hq

theorem getSets_length (ext cap n : Nat) (dc : VK2DDescCon) :
    (vk2dDescConGetSets ext cap n dc).2.length = n := by
  induction n generalizing dc with
  | zero => rfl
  | succ m ih =>
    simp only [vk2dDescConGetSets, List.length_cons]
    rw [ih]

theorem getSets_first_pool (ext cap : Nat) :
    ∀ (k : Nat) (dc : VK2DDescCon) (h j : Nat) (rest : List Pool),
      dc.pools = ⟨h, j⟩ :: rest → j + k ≤ cap →
      (vk2dDescConGetSets ext cap k dc).1.pools = ⟨h, j + k⟩ :: rest := by
  intro k
  induction k with
  | zero =>
    intro dc h j rest hp _
    simpa [vk2dDescConGetSets] using hp
  | succ m ih =>
    intro dc h j rest hp hk
    have hj : j < cap := by omega
    have hscan : descConScan cap dc.pools = some (0, j, ⟨h, j + 1⟩ :: rest) := by
      rw [hp]
      simp [descConScan, hj]
    have hstep : (vk2dDescConGetSet ext cap dc).1 = { dc with pools := ⟨h, j + 1⟩ :: rest } := by
      simp [vk2dDescConGetSet, _vk2dDescConGetAvailableSet, hscan]
    have hrec := ih { dc with pools := ⟨h, j + 1⟩ :: rest } h (j + 1) rest rfl (by omega)
    have e : j + 1 + m = j + (m + 1) := by omega
    rw [e] at hrec
    calc (vk2dDescConGetSets ext cap (m + 1) dc).1.pools
        = (vk2dDescConGetSets ext cap m (vk2dDescConGetSet ext cap dc).1).1.pools := rfl
      _ = ⟨h, j + (m + 1)⟩ :: rest := by rw [hstep]; exact hrec

theorem appendList_def (ext : Nat) (dc : VK2DDescCon) :
    _vk2dDescConAppendList ext dc =
      { dc with
        poolListSize :=
          if dc.poolListSize = dc.pools.length then dc.poolListSize + ext
          else dc.poolListSize,
        pools := dc.pools ++ [⟨dc.pools.length, 0⟩] } := by
  unfold _vk2dDescConAppendList
  by_cases he : dc.poolListSize = dc.pools.length
  · simp [he]
  · simp [he]

theorem appendList_preserves (ext : Nat) (hext : 0 < ext) (dc : VK2DDescCon)
    (h : dc.pools.length ≤ dc.poolListSize) :
    (_vk2dDescConAppendList ext dc).pools.length ≤
      (_vk2dDescConAppendList ext dc).poolListSize := by
  rw [appendList_def]
  show (dc.pools ++ [(⟨dc.pools.length, 0⟩ : Pool)]).length ≤
    (if dc.poolListSize = dc.pools.length then dc.poolListSize + ext else dc.poolListSize)
  simp only [List.length_append, List.length_cons, List.length_nil]
  by_cases he : dc.poolListSize = dc.pools.length
  · rw [if_pos he]; omega
  · rw [if_neg he]; omega

/-- C1: `_vk2dDescConGetAvailableSet` scans the backing pools in creation
order — every pool before the chosen one had reported out-of-pool-memory
(was full) — appends exactly one new backing pool (empty, same sizing
policy) when all existing pools are exhausted and retries from that new
pool, so a `getSet` call never fails (the model has no device
out-of-memory), and any `N` consecutive `getSet` calls all return valid,
pairwise-distinct sets. -/
theorem descCon_getSet_scans_grows_distinct (ext cap : Nat) (hcap : 0 < cap) :
    (∀ (dc : VK2DDescCon) (i s : Nat),
        (vk2dDescConGetSet ext cap dc).2 = some (i, s) →
        (∀ j, j < i → cap ≤ fillAt dc j) ∧ fillAt dc i = s ∧ s < cap ∧
          i ≤ dc.pools.length ∧
          (i = dc.pools.length →
            (vk2dDescConGetSet ext cap dc).1.pools =
                dc.pools ++ [⟨dc.pools.length, 1⟩] ∧ s = 0)) ∧
    (∀ dc : VK2DDescCon, (vk2dDescConGetSet ext cap dc).2.isSome) ∧
    (∀ (n : Nat) (dc : VK2DDescCon), ∃ l : List (Nat × Nat),
        (vk2dDescConGetSets ext cap n dc).2 = l.map some ∧
        l.length = n ∧ l.Pairwise (· ≠ ·)) := by
  refine ⟨?_, ?_, ?_⟩
  · intro dc i s hres
    cases hscan : descConScan cap dc.pools with
    | some t =>
      obtain ⟨i', s', ps'⟩ := t
      obtain ⟨hlt, hfill, hslt, _, hprev⟩ := descConScan_eq_some cap hscan
      have : (vk2dDescConGetSet ext cap dc).2 = some (i', s') := by
        simp [vk2dDescConGetSet, _vk2dDescConGetAvailableSet, hscan]
      rw [this] at hres
      simp only [Option.some.injEq, Prod.mk.injEq] at hres
      obtain ⟨rfl, rfl⟩ := hres
      exact ⟨hprev, hfill, hslt, Nat.le_of_lt hlt,
        fun he => absurd he (Nat.ne_of_lt hlt)⟩
    | none =>
      have hall : ∀ p ∈ dc.pools, cap ≤ p.fill :=
        (descConScan_eq_none_iff cap dc.pools).mp hscan
      have : (vk2dDescConGetSet ext cap dc).2 = some (dc.pools.length, 0) := by
        simp [vk2dDescConGetSet, _vk2dDescConGetAvailableSet, hscan, hcap]
      rw [this] at hres
      simp only [Option.some.injEq, Prod.mk.injEq] at hres
      obtain ⟨rfl, rfl⟩ := hres
      refine ⟨?_, ?_, hcap, Nat.le_refl _, fun _ => ⟨?_, rfl⟩⟩
      · intro j hj
        have hmem : dc.pools.getD j default ∈ dc.pools := by
          rw [List.getD_eq_getElem _ _ hj]
          exact List.getElem_mem hj
        exact hall _ hmem
      · simp [fillAt, List.getD_eq_default _ _ (Nat.le_refl _)]
        rfl
      · simp [vk2dDescConGetSet, _vk2dDescConGetAvailableSet, hscan, hcap]
  · intro dc
    obtain ⟨i, s, hres, -⟩ := getAvailableSet_spec ext cap hcap dc
    simp [vk2dDescConGetSet, hres]
  · intro n dc
    obtain ⟨l, hl, hpw, -⟩ := getSets_spec ext cap hcap n dc [] (by simp) (by simp)
    refine ⟨l, hl, ?_, by simpa using hpw⟩
    have := getSets_length ext cap n dc
    rw [hl, List.length_map] at this
    exact this

/-- C1 witness: with pool capacity 2 and array-extension chunk 1, a fresh
controller answers five consecutive `getSet` calls with five valid,
pairwise-distinct sets. -/
theorem descCon_getSet_scans_grows_distinct_witness :
    (0 < 2 ∧ (vk2dDescConGetSet 1 2 (vk2dDescConCreate 1 9 0 1 2)).2.isSome) ∧
      ∃ l : List (Nat × Nat),
        (vk2dDescConGetSets 1 2 5 (vk2dDescConCreate 1 9 0 1 2)).2 = l.map some ∧
        l.length = 5 ∧ l.Pairwise (· ≠ ·) :=
  ⟨⟨by decide,
    (descCon_getSet_scans_grows_distinct 1 2 (by decide)).2.1
      (vk2dDescConCreate 1 9 0 1 2)⟩,
   (descCon_getSet_scans_grows_distinct 1 2 (by decide)).2.2 5
     (vk2dDescConCreate 1 9 0 1 2)⟩

/-- C8: `vk2dDescConReset` performs exactly one pool-level reset per
backing pool (`poolsInUse` operations) and changes no controller field —
the pool-handle list, the pool count, the list capacity and the binding
locations are all unchanged; consequently a reset followed by at most one
pool's worth of `getSet` calls keeps the pool count stable, and the first
post-reset allocation is served from the first pool. -/
theorem descCon_reset_cheap_and_stable (ext cap : Nat) (hcap : 0 < cap) :
    (∀ dc : VK2DDescCon,
        (vk2dDescConReset dc).2 = dc.pools.length ∧
        (vk2dDescConReset dc).1.pools.map Pool.handle = dc.pools.map Pool.handle ∧
        (vk2dDescConReset dc).1.pools.length = dc.pools.length ∧
        (vk2dDescConReset dc).1.poolListSize = dc.poolListSize ∧
        (vk2dDescConReset dc).1.layout = dc.layout ∧
        (vk2dDescConReset dc).1.buffer = dc.buffer ∧
        (vk2dDescConReset dc).1.sampler = dc.sampler ∧
        (vk2dDescConReset dc).1.storageBuffer = dc.storageBuffer) ∧
    (∀ (dc : VK2DDescCon) (k : Nat), 0 < dc.pools.length → k ≤ cap →
        (vk2dDescConGetSets ext cap k (vk2dDescConReset dc).1).1.pools.length =
          dc.pools.length) ∧
    (∀ dc : VK2DDescCon, 0 < dc.pools.length →
        (vk2dDescConGetSet ext cap (vk2dDescConReset dc).1).2 = some (0, 0)) := by
  refine ⟨?_, ?_, ?_⟩
  · intro dc
    refine ⟨rfl, ?_, by simp [vk2dDescConReset], rfl, rfl, rfl, rfl, rfl⟩
    simp only [vk2dDescConReset, List.map_map]
    rfl
  · intro dc k hlen hk
    obtain ⟨p, ps, hp⟩ := List.exists_cons_of_ne_nil (List.ne_nil_of_length_pos hlen)
    have hreset : (vk2dDescConReset dc).1.pools =
        (⟨p.handle, 0⟩ : Pool) :: ps.map (fun q => { q with fill := 0 }) := by
      simp [vk2dDescConReset, hp]
    have := getSets_first_pool ext cap k (vk2dDescConReset dc).1 p.handle 0
      (ps.map (fun q => { q with fill := 0 })) hreset (by omega)
    rw [this, hp]
    simp
  · intro dc hlen
    obtain ⟨p, ps, hp⟩ := List.exists_cons_of_ne_nil (List.ne_nil_of_length_pos hlen)
    have hreset : (vk2dDescConReset dc).1.pools =
        (⟨p.handle, 0⟩ : Pool) :: ps.map (fun q => { q with fill := 0 }) := by
      simp [vk2dDescConReset, hp]
    have hscan : descConScan cap (vk2dDescConReset dc).1.pools =
        some (0, 0, (⟨p.handle, 1⟩ : Pool) :: ps.map (fun q => { q with fill := 0 })) := by
      rw [hreset]
      simp [descConScan, hcap]
    simp [vk2dDescConGetSet, _vk2dDescConGetAvailableSet, hscan]

/-- C8 witness: after five allocations spread over three pools, one reset
performs exactly three pool resets and the next allocation is served from
the first pool again. -/
theorem descCon_reset_cheap_and_stable_witness :
    (vk2dDescConReset (vk2dDescConGetSets 1 2 5 (vk2dDescConCreate 1 9 0 1 2)).1).2 =
        (vk2dDescConGetSets 1 2 5 (vk2dDescConCreate 1 9 0 1 2)).1.pools.length ∧
      (vk2dDescConGetSet 1 2
          (vk2dDescConReset (vk2dDescConGetSets 1 2 5 (vk2dDescConCreate 1 9 0 1 2)).1).1).2 =
        some (0, 0) :=
  ⟨((descCon_reset_cheap_and_stable 1 2 (by decide)).1
      (vk2dDescConGetSets 1 2 5 (vk2dDescConCreate 1 9 0 1 2)).1).1,
   (descCon_reset_cheap_and_stable 1 2 (by decide)).2.2
     (vk2dDescConGetSets 1 2 5 (vk2dDescConCreate 1 9 0 1 2)).1 (by decide)⟩

/-- C9: in every controller state reachable through `create`, `getSet` and
`reset`, `poolsInUse ≤ poolListSize` holds (count-in-use never exceeds the
handle-array capacity), and `getSet` appends a new backing pool only when
every existing pool is full (has reported out-of-pool-memory). -/
theorem descCon_invariant_and_append_policy (ext cap : Nat) (hext : 0 < ext) :
    (∀ dc : VK2DDescCon, DescConReachable ext cap dc →
        dc.pools.length ≤ dc.poolListSize) ∧
    (∀ dc : VK2DDescCon,
        (vk2dDescConGetSet ext cap dc).1.pools.length ≠ dc.pools.length →
        ∀ p ∈ dc.pools, cap ≤ p.fill) := by
  constructor
  · intro dc hreach
    induction hreach with
    | create layout buffer sampler storageBuffer =>
      exact appendList_preserves ext hext _ (by simp)
    | @getSet dc' hdc ih =>
      cases hscan : descConScan cap dc'.pools with
      | some t =>
        obtain ⟨i, s, ps'⟩ := t
        obtain ⟨-, -, -, hset, -⟩ := descConScan_eq_some cap hscan
        have : (vk2dDescConGetSet ext cap dc').1 = { dc' with pools := ps' } := by
          simp [vk2dDescConGetSet, _vk2dDescConGetAvailableSet, hscan]
        rw [this]
        simpa [hset, List.length_set] using ih
      | none =>
        by_cases hc : 0 < cap
        · have : (vk2dDescConGetSet ext cap dc').1 =
              { _vk2dDescConAppendList ext dc' with
                pools := dc'.pools ++ [⟨dc'.pools.length, 1⟩] } := by
            simp [vk2dDescConGetSet, _vk2dDescConGetAvailableSet, hscan, hc]
          rw [this]
          have happ := appendList_preserves ext hext dc' ih
          have hlen : (_vk2dDescConAppendList ext dc').pools.length =
              dc'.pools.length + 1 := by
            rw [appendList_def]; simp
          show (dc'.pools ++ [(⟨dc'.pools.length, 1⟩ : Pool)]).length ≤
            (_vk2dDescConAppendList ext dc').poolListSize
          calc (dc'.pools ++ [(⟨dc'.pools.length, 1⟩ : Pool)]).length
              = dc'.pools.length + 1 := by simp
            _ = (_vk2dDescConAppendList ext dc').pools.length := hlen.symm
            _ ≤ (_vk2dDescConAppendList ext dc').poolListSize := happ
        · have : (vk2dDescConGetSet ext cap dc').1 = _vk2dDescConAppendList ext dc' := by
            simp [vk2dDescConGetSet, _vk2dDescConGetAvailableSet, hscan, hc]
          rw [this]
          exact appendList_preserves ext hext dc' ih
    | @reset dc' hdc ih =>
      simpa [vk2dDescConReset] using ih
  · intro dc hne p hp
    cases hscan : descConScan cap dc.pools with
    | some t =>
      obtain ⟨i, s, ps'⟩ := t
      obtain ⟨-, -, -, hset, -⟩ := descConScan_eq_some cap hscan
      have : (vk2dDescConGetSet ext cap dc).1 = { dc with pools := ps' } := by
        simp [vk2dDescConGetSet, _vk2dDescConGetAvailableSet, hscan]
      rw [this] at hne
      exact absurd (by simp [hset, List.length_set]) hne
    | none =>
      exact (descConScan_eq_none_iff cap dc.pools).mp hscan p hp

/-- C9 witness: a freshly created controller satisfies the invariant. -/
theorem descCon_invariant_and_append_policy_witness :
    (vk2dDescConCreate 1 9 0 1 2).pools.length ≤
      (vk2dDescConCreate 1 9 0 1 2).poolListSize :=
  (descCon_invariant_and_append_policy 1 2 (by decide)).1
    (vk2dDescConCreate 1 9 0 1 2) (DescConReachable.create 9 0 1 2)

/-! ## Renderer theorems -/

theorem cameraFlushEvents_not_recording (cams : List VK2DCamera) :
    ∀ e ∈ cameraFlushEvents cams, (!isRecordingEvent e) = true := by
  intro e he
  simp only [cameraFlushEvents, List.mem_filterMap] at he
  obtain ⟨ic, -, hic⟩ := he
  by_cases h : ic.2.state = VK2DCameraState.cs_Normal
  · rw [if_pos h] at hic
    injection hic with h'
    subst h'
    rfl
  · rw [if_neg h] at hic
    exact absurd hic (by simp)

/-- C2: while a frame is already active, a second `vk2dRendererStartFrame`
leaves the renderer state unchanged and issues no driver call (no fence
wait, no acquire, no command-buffer begin); symmetrically,
`vk2dRendererEndFrame` with no active frame leaves the state unchanged and
issues no driver call (no submit, no present, no frame-ring advance). -/
theorem startFrame_reentrant_endFrame_inactive_noop :
    ∀ (clear : Int × Int × Int × Int) (now : Int) (idx : Nat)
      (result queueRes : VkResult) (elapsedMs : Int) (r : VK2DRenderer),
      (r.procedStartFrame = true →
        vk2dRendererStartFrame clear now idx (some r) = (some r, [])) ∧
      (r.procedStartFrame = false →
        vk2dRendererEndFrame result queueRes elapsedMs (some r) = (some r, [])) := by
  intro clear now idx result queueRes elapsedMs r
  constructor
  · intro h
    simp [vk2dRendererStartFrame, guarded, vk2dRendererStartFrameR, h]
  · intro h
    simp [vk2dRendererEndFrame, guarded, vk2dRendererEndFrameR, h]

/-- C2 witness: concrete runs of the re-entrant start and the inactive
end. -/
theorem startFrame_reentrant_endFrame_inactive_noop_witness :
    vk2dRendererStartFrame (0, 0, 0, 0) 5 1 (some sampleRenderer) =
        (some sampleRenderer, []) ∧
      vk2dRendererEndFrame VkResult.success VkResult.success 3
          (some { sampleRenderer with procedStartFrame := false }) =
        (some { sampleRenderer with procedStartFrame := false }, []) :=
  ⟨(startFrame_reentrant_endFrame_inactive_noop (0, 0, 0, 0) 5 1
      VkResult.success VkResult.success 3 sampleRenderer).1 rfl,
   (startFrame_reentrant_endFrame_inactive_noop (0, 0, 0, 0) 5 1
      VkResult.success VkResult.success 3
      { sampleRenderer with procedStartFrame := false }).2 rfl⟩

/-- C6: every exposed renderer operation called on a null singleton logs a
message, changes no state, performs no driver call, and returns a neutral
value: 0 for `getAverageFrameTime`, the zeroed configuration for
`getConfig`, `NULL` for `getDevice`, `bm_None` for `getBlendMode`. -/
theorem null_singleton_guard :
    ∀ (clear : Int × Int × Int × Int) (now elapsedMs : Int) (idx X : Nat)
      (result queueRes : VkResult) (c : VK2DRendererConfig)
      (s : VK2DCameraSpec) (x y w h : Int) (mod : Int × Int × Int × Int),
      vk2dRendererStartFrame clear now idx none = (none, [VkEvent.logMessage]) ∧
      vk2dRendererEndFrame result queueRes elapsedMs none = (none, [VkEvent.logMessage]) ∧
      vk2dRendererSetTarget X none = (none, [VkEvent.logMessage]) ∧
      vk2dRendererSetConfig c none = (none, [VkEvent.logMessage]) ∧
      vk2dRendererGetConfig none = (none, [VkEvent.logMessage], zeroConfig) ∧
      vk2dRendererSetCamera s none = (none, [VkEvent.logMessage]) ∧
      vk2dRendererSetViewport x y w h none = (none, [VkEvent.logMessage]) ∧
      vk2dRendererSetColourMod mod none = (none, [VkEvent.logMessage]) ∧
      vk2dRendererGetAverageFrameTime none = (none, [VkEvent.logMessage], 0) ∧
      vk2dRendererWait none = (none, [VkEvent.logMessage]) ∧
      vk2dRendererGetDevice none = (none, [VkEvent.logMessage], 0) ∧
      vk2dRendererGetBlendMode none = (none, [VkEvent.logMessage], VK2DBlendMode.bm_None) := by
  intro clear now elapsedMs idx X result queueRes c s x y w h mod
  exact ⟨rfl, rfl, rfl, rfl, rfl, rfl, rfl, rfl, rfl, rfl, rfl, rfl⟩

/-- C7: `vk2dRendererSetConfig` leaves the applied configuration
untouched, staging the new one (MSAA clamped to the device maximum) and
setting the rebuild-request flag; the applied configuration changes only
inside the swapchain rebuild procedure, which `startFrame` and
`setTarget` never run and `endFrame` runs exactly under its rebuild
condition. -/
theorem setConfig_staged_until_rebuild :
    ∀ (c : VK2DRendererConfig) (r : VK2DRenderer),
      (vk2dRendererSetConfigR c r).config = r.config ∧
      (vk2dRendererSetConfigR c r).newConfig =
        { c with msaa := if r.maxMSAA ≥ c.msaa then c.msaa else r.maxMSAA } ∧
      (vk2dRendererSetConfigR c r).resetSwapchain = true ∧
      (_vk2dRendererResetSwapchain r).config = r.newConfig ∧
      (∀ (clear : Int × Int × Int × Int) (now : Int) (idx : Nat),
        (vk2dRendererStartFrameR clear now idx r).1.config = r.config ∧
          (vk2dRendererStartFrameR clear now idx r).1.newConfig = r.newConfig) ∧
      (∀ X, (vk2dRendererSetTargetR X r).1.config = r.config) ∧
      (∀ (result queueRes : VkResult) (elapsedMs : Int),
        (vk2dRendererEndFrameR result queueRes elapsedMs r).1.config =
          (if r.procedStartFrame && endFrameRebuildCond result queueRes r
           then r.newConfig else r.config)) := by
  intro c r
  refine ⟨rfl, rfl, rfl, rfl, ?_, ?_, ?_⟩
  · intro clear now idx
    constructor
    · simp only [vk2dRendererStartFrameR]
      split
      · rfl
      · rfl
    · simp only [vk2dRendererStartFrameR]
      split
      · rfl
      · rfl
  · intro X
    simp only [vk2dRendererSetTargetR]
    split
    · rfl
    · rfl
  · intro result queueRes elapsedMs
    cases hp : r.procedStartFrame with
    | false => simp [vk2dRendererEndFrameR, hp]
    | true =>
      cases hc : endFrameRebuildCond result queueRes r with
      | false =>
        simp [vk2dRendererEndFrameR, hp, hc, apply_ite VK2DRenderer.config]
      | true =>
        simp [vk2dRendererEndFrameR, hp, hc, apply_ite VK2DRenderer.config,
          _vk2dRendererResetSwapchain]

/-- C3: on `vk2dRendererStartFrame` with no frame active, the trace up to
the first recording event is exactly: wait on the current frame slot's
in-flight fence, acquire the image index, wait on that image's recorded
last-user fence (non-null here by hypothesis), record the current slot's
fence as the image's new last user, then the camera UBO flushes — so a
frame never begins writing to a swapchain image whose previous user's
fence has not been observed signaled, and the new last-user record is in
place before any recording proceeds. -/
theorem startFrame_waits_for_image_fence_before_writing :
    ∀ (clear : Int × Int × Int × Int) (now : Int) (idx : Nat)
      (r : VK2DRenderer) (f : Nat),
      r.procedStartFrame = false →
      r.imagesInFlight.getD idx none = some f →
      ∃ (r' : VK2DRenderer) (tr : List VkEvent),
        vk2dRendererStartFrame clear now idx (some r) = (some r', tr) ∧
        tr.takeWhile (fun e => !isRecordingEvent e) =
          [VkEvent.waitFences (slotFence r), VkEvent.acquireNextImage idx,
           VkEvent.waitFences f, VkEvent.recordImageUser idx (slotFence r)]
            ++ cameraFlushEvents r.cameras ∧
        VkEvent.beginCommandBuffer ∈ tr ∧
        VkEvent.beginRenderPass r.renderPass ∈ tr ∧
        r'.imagesInFlight.getD idx none = some (slotFence r) := by
  intro clear now idx r f hproc himg
  have hidx : idx < r.imagesInFlight.length := by
    by_contra hge
    rw [List.getD_eq_default _ _ (Nat.le_of_not_lt hge)] at himg
    cases himg
  have himg2 : r.imagesInFlight[idx]?.getD none = some f := by
    simpa [List.getD] using himg
  have htr : (vk2dRendererStartFrameR clear now idx r).2 =
      VkEvent.waitFences (slotFence r) :: VkEvent.acquireNextImage idx ::
        VkEvent.waitFences f :: VkEvent.recordImageUser idx (slotFence r) ::
        (cameraFlushEvents r.cameras ++
          [VkEvent.resetCommandBuffer, VkEvent.beginCommandBuffer,
           VkEvent.beginRenderPass r.renderPass]) := by
    simp [vk2dRendererStartFrameR, hproc, himg2]
  refine ⟨(vk2dRendererStartFrameR clear now idx r).1,
    (vk2dRendererStartFrameR clear now idx r).2, rfl, ?_, ?_, ?_, ?_⟩
  · rw [htr]
    simp only [List.takeWhile_cons]
    rw [takeWhile_append_of_all _ _ (cameraFlushEvents_not_recording r.cameras)]
    simp [isRecordingEvent]
  · rw [htr]; simp
  · rw [htr]; simp
  · have hst : (vk2dRendererStartFrameR clear now idx r).1.imagesInFlight =
        r.imagesInFlight.set idx (some (slotFence r)) := by
      simp [vk2dRendererStartFrameR, hproc, _vk2dRendererResetBoundPointers]
    rw [hst, getD_set_eq _ _ _ _ hidx]

/-- C3 witness: a concrete start-frame on the concrete renderer, image 0
whose recorded last user is fence 32. -/
theorem startFrame_waits_for_image_fence_before_writing_witness :
    ∃ (r' : VK2DRenderer) (tr : List VkEvent),
      vk2dRendererStartFrame (0, 0, 0, 0) 7 0
          (some { sampleRenderer with procedStartFrame := false }) = (some r', tr) ∧
      tr.takeWhile (fun e => !isRecordingEvent e) =
        [VkEvent.waitFences (slotFence { sampleRenderer with procedStartFrame := false }),
         VkEvent.acquireNextImage 0, VkEvent.waitFences 32,
         VkEvent.recordImageUser 0
           (slotFence { sampleRenderer with procedStartFrame := false })]
          ++ cameraFlushEvents { sampleRenderer with procedStartFrame := false }.cameras ∧
      VkEvent.beginCommandBuffer ∈ tr ∧
      VkEvent.beginRenderPass { sampleRenderer with procedStartFrame := false }.renderPass ∈ tr ∧
      r'.imagesInFlight.getD 0 none =
        some (slotFence { sampleRenderer with procedStartFrame := false }) :=
  startFrame_waits_for_image_fence_before_writing (0, 0, 0, 0) 7 0
    { sampleRenderer with procedStartFrame := false } 32 rfl (by decide)

/-- C4 counterexample: on the concrete active-frame renderer, switching
from the screen target to off-screen texture 1 performs no layout
transition of the outgoing image (the swapchain image 100) at all — only
the incoming texture image is transitioned — so a real target switch does
not perform "one layout transition of the outgoing image and one of the
incoming image". -/
theorem setTarget_single_transition_counterexample :
    1 ≠ sampleRenderer.target ∧ ¬ setTargetTransitionsBothImages sampleRenderer 1 := by
  constructor
  · decide
  · intro h
    exact absurd h.1 (by decide)

/-- C4 (amended): `vk2dRendererSetTarget X` is a no-op exactly when `X`
is pointer-identical to the active target; otherwise it performs exactly
one end-render-pass, exactly one image-layout transition — of the
outgoing image when returning to the screen, of the incoming texture's
image otherwise — one begin of the target-appropriate render pass, and
one reset of the bound-pointer cache, so `setTarget X` immediately
followed by `setTarget X` performs exactly one render-pass transition in
total. -/
theorem setTarget_noop_iff_single_transition :
    ∀ (r : VK2DRenderer) (X : Nat),
      (X = r.target → vk2dRendererSetTargetR X r = (r, [])) ∧
      (X ≠ r.target →
        (vk2dRendererSetTargetR X r).2.countP isEndRenderPass = 1 ∧
        (vk2dRendererSetTargetR X r).2.countP isLayoutTransition = 1 ∧
        (X = VK2D_TARGET_SCREEN →
          (vk2dRendererSetTargetR X r).2 =
            [VkEvent.endRenderPass,
             VkEvent.transitionImageLayout r.targetImage
               LAYOUT_COLOR_ATTACHMENT_OPTIMAL LAYOUT_SHADER_READ_ONLY_OPTIMAL,
             VkEvent.beginRenderPass r.midFrameSwapRenderPass]) ∧
        (X ≠ VK2D_TARGET_SCREEN →
          (vk2dRendererSetTargetR X r).2 =
            [VkEvent.endRenderPass,
             VkEvent.transitionImageLayout (derefTex r X).img
               LAYOUT_SHADER_READ_ONLY_OPTIMAL LAYOUT_COLOR_ATTACHMENT_OPTIMAL,
             VkEvent.beginRenderPass r.externalTargetRenderPass]) ∧
        (vk2dRendererSetTargetR X r).2.countP isBeginRenderPass = 1 ∧
        (vk2dRendererSetTargetR X r).1.boundPipe = 0 ∧
        (vk2dRendererSetTargetR X r).1.boundSet = 0 ∧
        (vk2dRendererSetTargetR X r).1.target = X ∧
        (vk2dRendererSetTargetR X (vk2dRendererSetTargetR X r).1).2 = []) := by
  intro r X
  constructor
  · intro h
    simp [vk2dRendererSetTargetR, h]
  · intro h
    by_cases hscr : X = VK2D_TARGET_SCREEN
    · subst hscr
      refine ⟨?_, ?_, ?_, ?_, ?_, ?_, ?_, ?_, ?_⟩ <;>
        simp [vk2dRendererSetTargetR, if_neg h, List.countP_cons,
          isEndRenderPass, isLayoutTransition, isBeginRenderPass,
          _vk2dRendererResetBoundPointers]
    · refine ⟨?_, ?_, ?_, ?_, ?_, ?_, ?_, ?_, ?_⟩ <;>
        simp [vk2dRendererSetTargetR, if_neg h, if_neg hscr, hscr, List.countP_cons,
          isEndRenderPass, isLayoutTransition, isBeginRenderPass,
          _vk2dRendererResetBoundPointers]

/-- C4 witness: a concrete screen-to-texture switch followed by the same
call again — exactly one layout transition, one render-pass begin, and an
empty second trace. -/
theorem setTarget_noop_iff_single_transition_witness :
    (vk2dRendererSetTargetR 1 sampleRenderer).2.countP isLayoutTransition = 1 ∧
      (vk2dRendererSetTargetR 1 sampleRenderer).2.countP isBeginRenderPass = 1 ∧
      (vk2dRendererSetTargetR 1 (vk2dRendererSetTargetR 1 sampleRenderer).1).2 = [] :=
  ⟨((setTarget_noop_iff_single_transition sampleRenderer 1).2 (by decide)).2.1,
   ((setTarget_noop_iff_single_transition sampleRenderer 1).2 (by decide)).2.2.2.2.1,
   ((setTarget_noop_iff_single_transition sampleRenderer 1).2 (by decide)).2.2.2.2.2.2.2.2⟩

/-- C5: for a completed frame (presenting a single swapchain, so the
return value of `vkQueuePresentKHR` coincides with the per-swapchain
result), `vk2dRendererEndFrame` triggers the swapchain rebuild exactly
when presentation reports out-of-date or suboptimal or a reset was
requested, clearing the request flag in that case instead of error-checking
the non-success present result, and in every case advances the frame-slot
ring index by one modulo the frames-in-flight count. -/
theorem endFrame_rebuild_iff_and_ring_advance :
    ∀ (result : VkResult) (elapsedMs : Int) (r : VK2DRenderer),
      r.procedStartFrame = true →
      ∃ (r' : VK2DRenderer) (tr : List VkEvent),
        vk2dRendererEndFrame result result elapsedMs (some r) = (some r', tr) ∧
        ((VkEvent.rebuildSwapchain ∈ tr) ↔
          (result = VkResult.errorOutOfDateKHR ∨ result = VkResult.suboptimalKHR ∨
            r.resetSwapchain = true)) ∧
        ((result = VkResult.errorOutOfDateKHR ∨ result = VkResult.suboptimalKHR ∨
            r.resetSwapchain = true) →
          r'.resetSwapchain = false ∧ ∀ v, VkEvent.errorCheck v ∉ tr) ∧
        r'.currentFrame = (r.currentFrame + 1) % VK2D_MAX_FRAMES_IN_FLIGHT := by
  intro result elapsedMs r hproc
  have hcond : endFrameRebuildCond result result r = true ↔
      (result = VkResult.errorOutOfDateKHR ∨ result = VkResult.suboptimalKHR ∨
        r.resetSwapchain = true) := by
    simp only [endFrameRebuildCond, decide_eq_true_eq]
    constructor
    · rintro (h | h | h | h)
      · exact Or.inl h
      · exact Or.inr (Or.inl h)
      · exact Or.inr (Or.inr h)
      · exact Or.inl h
    · rintro (h | h | h)
      · exact Or.inl h
      · exact Or.inr (Or.inl h)
      · exact Or.inr (Or.inr (Or.inl h))
  refine ⟨(vk2dRendererEndFrameR result result elapsedMs r).1,
    (vk2dRendererEndFrameR result result elapsedMs r).2, rfl, ?_, ?_, ?_⟩
  · cases hc : endFrameRebuildCond result result r with
    | true =>
      rw [← hcond]
      simp [vk2dRendererEndFrameR, hproc, hc]
    | false =>
      rw [← hcond]
      simp [vk2dRendererEndFrameR, hproc, hc]
  · intro hreb
    have hc : endFrameRebuildCond result result r = true := hcond.mpr hreb
    constructor
    · simp [vk2dRendererEndFrameR, hproc, hc,
        apply_ite VK2DRenderer.resetSwapchain]
    · intro v
      simp [vk2dRendererEndFrameR, hproc, hc]
  · cases hc : endFrameRebuildCond result result r with
    | true =>
      simp [vk2dRendererEndFrameR, hproc, hc, _vk2dRendererResetSwapchain,
        apply_ite VK2DRenderer.currentFrame]
    | false =>
      simp [vk2dRendererEndFrameR, hproc, hc, apply_ite VK2DRenderer.currentFrame]

/-- C5 witness: a concrete suboptimal present on the concrete renderer. -/
theorem endFrame_rebuild_iff_and_ring_advance_witness :
    ∃ (r' : VK2DRenderer) (tr : List VkEvent),
      vk2dRendererEndFrame VkResult.suboptimalKHR VkResult.suboptimalKHR 4
          (some sampleRenderer) = (some r', tr) ∧
      ((VkEvent.rebuildSwapchain ∈ tr) ↔
        (VkResult.suboptimalKHR = VkResult.errorOutOfDateKHR ∨
          VkResult.suboptimalKHR = VkResult.suboptimalKHR ∨
          sampleRenderer.resetSwapchain = true)) ∧
      ((VkResult.suboptimalKHR = VkResult.errorOutOfDateKHR ∨
          VkResult.suboptimalKHR = VkResult.suboptimalKHR ∨
          sampleRenderer.resetSwapchain = true) →
        r'.resetSwapchain = false ∧ ∀ v, VkEvent.errorCheck v ∉ tr) ∧
      r'.currentFrame = (sampleRenderer.currentFrame + 1) % VK2D_MAX_FRAMES_IN_FLIGHT :=
  endFrame_rebuild_iff_and_ring_advance VkResult.suboptimalKHR 4 sampleRenderer rfl

/-- C10: `vk2dRendererSetCamera` stores the caller's spec into the
default camera slot except that the on-screen placement is always
overwritten: `wOnScreen`/`hOnScreen` become the surface size and
`xOnScreen`/`yOnScreen` become 0. -/
theorem setCamera_overwrites_onscreen_placement :
    ∀ (s : VK2DCameraSpec) (r : VK2DRenderer), 0 < r.cameras.length →
      ∃ r', vk2dRendererSetCamera s (some r) = (some r', []) ∧
        (r'.cameras.getD VK2D_DEFAULT_CAMERA default).spec =
          { s with
            xOnScreen := 0, yOnScreen := 0,
            wOnScreen := r.surfaceWidth, hOnScreen := r.surfaceHeight } := by
  intro s r hlen
  refine ⟨vk2dRendererSetCameraR s r, rfl, ?_⟩
  simp only [vk2dRendererSetCameraR]
  rw [getD_set_eq _ _ _ _ (by simpa [VK2D_DEFAULT_CAMERA] using hlen)]

/-- C10 witness: a concrete camera spec on the concrete renderer. -/
theorem setCamera_overwrites_onscreen_placement_witness :
    ∃ r', vk2dRendererSetCamera ⟨3, 10, 20, 30, 40, 2, 1, 111, 222, 333, 444⟩
        (some sampleRenderer) = (some r', []) ∧
      (r'.cameras.getD VK2D_DEFAULT_CAMERA default).spec =
        { (⟨3, 10, 20, 30, 40, 2, 1, 111, 222, 333, 444⟩ : VK2DCameraSpec) with
          xOnScreen := 0, yOnScreen := 0, wOnScreen := 640, hOnScreen := 480 } :=
  setCamera_overwrites_onscreen_placement
    ⟨3, 10, 20, 30, 40, 2, 1, 111, 222, 333, 444⟩ sampleRenderer (by decide)

end VK2D
